import Mathlib

/-!
Verification of the RewindPix application logic.

The application (App.tsx) manages five pieces of state: two optional photo
slots (child, adult), an optional generated image, a loading flag and an
optional error message. The handlers below are shallow embeddings of the
event handlers in the source: `handleGenerate`, `handleStartOver`, the two
photo-upload handlers, the `isGenerateDisabled` guard, and the
`handleFileChange` validation of the ImageUploader component.

JavaScript strings are modelled as Lean `String`, `null`-able values as
`Option`, promise rejection as `Except`, and file contents as `List Nat`
(one entry per byte). The browser's `FileReader.readAsDataURL` base64
encoding is not part of the repository; it is modelled from the spec using
the standard base64 alphabet with padding.
-/

/-- One uploaded photo after encoding: `{ base64Data, mimeType }` from App.tsx. -/
structure Photo where
  base64Data : String
  mimeType : String
deriving DecidableEq, Repr

/-- The application state: the five `useState` hooks of the App component. -/
structure AppState where
  childPhoto : Option Photo
  adultPhoto : Option Photo
  generatedImage : Option String
  isLoading : Bool
  error : Option String
deriving DecidableEq, Repr

/-- The initial values of the five `useState` hooks. -/
def initialState : AppState :=
  { childPhoto := none
    adultPhoto := none
    generatedImage := none
    isLoading := false
    error := none }

/-- The guard `isGenerateDisabled = !childPhoto || !adultPhoto || isLoading`. -/
def isGenerateDisabled (s : AppState) : Bool :=
  s.childPhoto.isNone || s.adultPhoto.isNone || s.isLoading

/-- The synchronous part of `handleGenerate`: the early-return guard, then
`setIsLoading(true); setError(null); setGeneratedImage(null)`. -/
def handleGenerateSync (s : AppState) : AppState :=
  if s.childPhoto.isNone || s.adultPhoto.isNone then
    { s with error := some "Please upload both photos before generating." }
  else
    { s with isLoading := true, error := none, generatedImage := none }

/-- Settling of the awaited `generateReunificationImage` call inside
`handleGenerate`: the `try` branch on resolution, the `catch` branch on a
rejection carrying message `m`, and the `finally` clearing the loading flag. -/
def generateResolve (s : AppState) (res : Except String String) : AppState :=
  match res with
  | Except.ok r =>
      { s with generatedImage := some ("data:image/jpeg;base64," ++ r),
               isLoading := false }
  | Except.error m =>
      { s with error := some ("Failed to generate image: " ++ m),
               isLoading := false }

/-- The whole `handleGenerate` run to completion, given the outcome `res`
the client would produce. On the guard path the client is never called and
the outcome is ignored. -/
def handleGenerate (s : AppState) (res : Except String String) : AppState :=
  if s.childPhoto.isNone || s.adultPhoto.isNone then
    handleGenerateSync s
  else
    generateResolve (handleGenerateSync s) res

/-- The `handleStartOver` handler: resets all five state hooks. -/
def handleStartOver (s : AppState) : AppState :=
  { s with childPhoto := none
           adultPhoto := none
           generatedImage := none
           error := none
           isLoading := false }

/-- The `handleChildPhotoUpload` handler, given the outcome of reading the
file: on success store the photo, on a read failure set the error message. -/
def handleChildPhotoUpload (s : AppState) (res : Except Unit Photo) : AppState :=
  match res with
  | Except.ok p => { s with childPhoto := some p }
  | Except.error _ => { s with error := some "Failed to read child photo." }

/-- The `handleAdultPhotoUpload` handler, symmetric to the child one. -/
def handleAdultPhotoUpload (s : AppState) (res : Except Unit Photo) : AppState :=
  match res with
  | Except.ok p => { s with adultPhoto := some p }
  | Except.error _ => { s with error := some "Failed to read adult photo." }

/-- The `handleDownload` handler: a pure side effect, application state
unchanged. -/
def handleDownload (s : AppState) : AppState := s

/-- One completed event-handler step of the application. Generation is split
into its synchronous part and the later settling of the awaited call, so the
in-flight loading state is itself a steady state between steps. -/
inductive AppEvent where
  | uploadChild (res : Except Unit Photo)
  | uploadAdult (res : Except Unit Photo)
  | generateTrigger
  | generateSettle (res : Except String String)
  | startOver
  | download

/-- Apply one event to the application state. -/
def stepApp (s : AppState) : AppEvent → AppState
  | AppEvent.uploadChild res => handleChildPhotoUpload s res
  | AppEvent.uploadAdult res => handleAdultPhotoUpload s res
  | AppEvent.generateTrigger => handleGenerateSync s
  | AppEvent.generateSettle res => generateResolve s res
  | AppEvent.startOver => handleStartOver s
  | AppEvent.download => handleDownload s

/-- The state reached from the initial state by a sequence of events. -/
def runApp (evs : List AppEvent) : AppState :=
  evs.foldl stepApp initialState

/-- C1: the Generate Reunion trigger is disabled exactly when `childPhoto`
is absent, or `adultPhoto` is absent, or `isLoading` is true; it is enabled
in the one remaining combination. -/
theorem generate_disabled_iff (s : AppState) :
    isGenerateDisabled s = true ↔
      s.childPhoto = none ∨ s.adultPhoto = none ∨ s.isLoading = true := by
  simp [isGenerateDisabled, Option.isNone_iff_eq_none, or_assoc]

/-- C2: with both slots filled, triggering generation synchronously yields
loading true, error cleared, generated image cleared, photo slots unchanged. -/
theorem generate_sync_loading (s : AppState) (p q : Photo)
    (hc : s.childPhoto = some p) (ha : s.adultPhoto = some q) :
    (handleGenerateSync s).isLoading = true ∧
    (handleGenerateSync s).error = none ∧
    (handleGenerateSync s).generatedImage = none ∧
    (handleGenerateSync s).childPhoto = s.childPhoto ∧
    (handleGenerateSync s).adultPhoto = s.adultPhoto := by
  simp [handleGenerateSync, hc, ha]

/-- Witness for C2 at a concrete state with both slots filled. -/
theorem generate_sync_loading_witness :
    (let s : AppState :=
      { childPhoto := some ⟨"AAA", "image/png"⟩
        adultPhoto := some ⟨"BBB", "image/jpeg"⟩
        generatedImage := some "old"
        isLoading := false
        error := some "old error" }
     s.childPhoto = some ⟨"AAA", "image/png"⟩ ∧
     s.adultPhoto = some ⟨"BBB", "image/jpeg"⟩ ∧
     ((handleGenerateSync s).isLoading = true ∧
      (handleGenerateSync s).error = none ∧
      (handleGenerateSync s).generatedImage = none ∧
      (handleGenerateSync s).childPhoto = s.childPhoto ∧
      (handleGenerateSync s).adultPhoto = s.adultPhoto)) :=
  ⟨rfl, rfl,
    generate_sync_loading _ ⟨"AAA", "image/png"⟩ ⟨"BBB", "image/jpeg"⟩ rfl rfl⟩

/-- C3: if the client resolves with base64 string `S`, the final state has
`generatedImage = "data:image/jpeg;base64," ++ S` and `isLoading = false`. -/
theorem generate_success_result (s : AppState) (p q : Photo) (S : String)
    (hc : s.childPhoto = some p) (ha : s.adultPhoto = some q) :
    (handleGenerate s (Except.ok S)).generatedImage =
      some ("data:image/jpeg;base64," ++ S) ∧
    (handleGenerate s (Except.ok S)).isLoading = false := by
  simp [handleGenerate, handleGenerateSync, generateResolve, hc, ha]

/-- Witness for C3 at a concrete state and base64 string. -/
theorem generate_success_result_witness :
    (let s : AppState :=
      { childPhoto := some ⟨"AAA", "image/png"⟩
        adultPhoto := some ⟨"BBB", "image/jpeg"⟩
        generatedImage := none
        isLoading := false
        error := none }
     s.childPhoto = some ⟨"AAA", "image/png"⟩ ∧
     s.adultPhoto = some ⟨"BBB", "image/jpeg"⟩ ∧
     ((handleGenerate s (Except.ok "abc123==")).generatedImage =
        some ("data:image/jpeg;base64," ++ "abc123==") ∧
      (handleGenerate s (Except.ok "abc123==")).isLoading = false)) :=
  ⟨rfl, rfl,
    generate_success_result _ ⟨"AAA", "image/png"⟩ ⟨"BBB", "image/jpeg"⟩
      "abc123==" rfl rfl⟩

/-- C4: if the client rejects with message `M`, the final state has an error
message containing `M` (it is the fixed text followed by `M`), loading false
and no generated image. -/
theorem generate_failure_result (s : AppState) (p q : Photo) (M : String)
    (hc : s.childPhoto = some p) (ha : s.adultPhoto = some q) :
    (handleGenerate s (Except.error M)).error =
      some ("Failed to generate image: " ++ M) ∧
    (handleGenerate s (Except.error M)).isLoading = false ∧
    (handleGenerate s (Except.error M)).generatedImage = none := by
  simp [handleGenerate, handleGenerateSync, generateResolve, hc, ha]

/-- Witness for C4 at a concrete state and message. -/
theorem generate_failure_result_witness :
    (let s : AppState :=
      { childPhoto := some ⟨"AAA", "image/png"⟩
        adultPhoto := some ⟨"BBB", "image/jpeg"⟩
        generatedImage := some "old"
        isLoading := false
        error := none }
     s.childPhoto = some ⟨"AAA", "image/png"⟩ ∧
     s.adultPhoto = some ⟨"BBB", "image/jpeg"⟩ ∧
     ((handleGenerate s (Except.error "boom")).error =
        some ("Failed to generate image: " ++ "boom") ∧
      (handleGenerate s (Except.error "boom")).isLoading = false ∧
      (handleGenerate s (Except.error "boom")).generatedImage = none)) :=
  ⟨rfl, rfl,
    generate_failure_result _ ⟨"AAA", "image/png"⟩ ⟨"BBB", "image/jpeg"⟩
      "boom" rfl rfl⟩

/-- C5: the start-over action yields the initial state from every state. -/
theorem startOver_initial (s : AppState) : handleStartOver s = initialState :=
  rfl

/-- C10: invoking generation with a photo slot empty sets the guard error
message and changes nothing else: loading, both slots and the generated
image keep their previous values. -/
theorem generate_guard_failure (s : AppState) (res : Except String String)
    (h : s.childPhoto = none ∨ s.adultPhoto = none) :
    handleGenerate s res =
      { s with error := some "Please upload both photos before generating." } := by
  have hg : (s.childPhoto.isNone || s.adultPhoto.isNone) = true := by
    rcases h with h | h <;> simp [h]
  simp [handleGenerate, handleGenerateSync, hg]

/-- Witness for C10 at a concrete state with the child slot empty. -/
theorem generate_guard_failure_witness :
    (let s : AppState :=
      { childPhoto := none
        adultPhoto := some ⟨"BBB", "image/jpeg"⟩
        generatedImage := some "old"
        isLoading := false
        error := none }
     (s.childPhoto = none ∨ s.adultPhoto = none) ∧
     handleGenerate s (Except.ok "abc") =
       { s with error := some "Please upload both photos before generating." }) :=
  ⟨Or.inl rfl, generate_guard_failure _ (Except.ok "abc") (Or.inl rfl)⟩

/-- The steady-state invariant of C9: never loading with a result present. -/
def loadingResultExclusive (s : AppState) : Prop :=
  ¬(s.isLoading = true ∧ s.generatedImage.isSome = true)

theorem stepApp_preserves_exclusive (s : AppState) (e : AppEvent)
    (h : loadingResultExclusive s) : loadingResultExclusive (stepApp s e) := by
  cases e with
  | uploadChild res =>
      cases res <;>
        simpa [stepApp, handleChildPhotoUpload, loadingResultExclusive] using h
  | uploadAdult res =>
      cases res <;>
        simpa [stepApp, handleAdultPhotoUpload, loadingResultExclusive] using h
  | generateTrigger =>
      by_cases hg : (s.childPhoto.isNone || s.adultPhoto.isNone) = true
      · simp [stepApp, handleGenerateSync, hg, loadingResultExclusive]
        simpa [loadingResultExclusive] using h
      · simp [stepApp, handleGenerateSync, hg, loadingResultExclusive]
  | generateSettle res =>
      cases res <;> simp [stepApp, generateResolve, loadingResultExclusive]
  | startOver =>
      simp [stepApp, handleStartOver, loadingResultExclusive]
  | download =>
      simpa [stepApp, handleDownload, loadingResultExclusive] using h

theorem foldl_preserves_exclusive (evs : List AppEvent) (s : AppState)
    (h : loadingResultExclusive s) :
    loadingResultExclusive (evs.foldl stepApp s) := by
  induction evs generalizing s with
  | nil => exact h
  | cons e rest ih => exact ih _ (stepApp_preserves_exclusive s e h)

/-- C9: in every state reachable by completed event-handler steps,
`isLoading` and `generatedImage` are never both truthy at once. -/
theorem reachable_loading_result_exclusive (evs : List AppEvent) :
    ¬((runApp evs).isLoading = true ∧ (runApp evs).generatedImage.isSome = true) :=
  foldl_preserves_exclusive evs initialState
    (by simp [loadingResultExclusive, initialState])

/-- A user-selected file: its name, declared media type, and content bytes. -/
structure JsFile where
  name : String
  type : String
  content : List Nat
deriving DecidableEq, Repr

/-- The JavaScript `s.startsWith(pre)` test. -/
def jsStartsWith (s p : String) : Bool :=
  List.isPrefixOf p.data s.data

/-- The standard base64 alphabet, index 0 to 63. -/
def base64Alphabet : List Char :=
  "ABCDEFGHIJKLMNOPQRSTUVWXYZabcdefghijklmnopqrstuvwxyz0123456789+/".data

/-- The character for a 6-bit group. -/
def encodeChar (i : Nat) : Char :=
  base64Alphabet.getD i 'A'

/-- The 6-bit group of an alphabet character. -/
def decodeChar (c : Char) : Nat :=
  base64Alphabet.indexOf c

/-- Modelled from the spec: the base64 encoding performed by the browser
inside `FileReader.readAsDataURL`, which is not part of the repository.
Standard RFC 4648 base64 with padding, three bytes to four characters. -/
def base64Encode : List Nat → List Char
  | [] => []
  | [a] =>
      [encodeChar (a / 4), encodeChar (a % 4 * 16), '=', '=']
  | [a, b] =>
      [encodeChar (a / 4), encodeChar (a % 4 * 16 + b / 16),
       encodeChar (b % 16 * 4), '=']
  | a :: b :: c :: rest =>
      encodeChar (a / 4) :: encodeChar (a % 4 * 16 + b / 16) ::
      encodeChar (b % 16 * 4 + c / 64) :: encodeChar (c % 64) ::
      base64Encode rest

/-- Modelled from the spec: the base64 decoding that the round-trip law of
the spec refers to (the repository itself never decodes). Standard RFC 4648
base64 with padding. -/
def base64Decode : List Char → List Nat
  | c1 :: c2 :: c3 :: c4 :: rest =>
      if c3 = '=' then
        [decodeChar c1 * 4 + decodeChar c2 / 16]
      else if c4 = '=' then
        [decodeChar c1 * 4 + decodeChar c2 / 16,
         decodeChar c2 % 16 * 16 + decodeChar c3 / 4]
      else
        (decodeChar c1 * 4 + decodeChar c2 / 16) ::
        (decodeChar c2 % 16 * 16 + decodeChar c3 / 4) ::
        (decodeChar c3 % 4 * 64 + decodeChar c4) ::
        base64Decode rest
  | _ => []

/-- JavaScript `String.prototype.split` on a one-character separator,
acting on the character list. -/
def splitChar (sep : Char) : List Char → List (List Char)
  | [] => [[]]
  | c :: rest =>
      if c = sep then [] :: splitChar sep rest
      else
        match splitChar sep rest with
        | [] => [[c]]
        | h :: t => (c :: h) :: t

/-- Modelled from the spec: `FileReader.readAsDataURL` produces the string
`data:<media type>;base64,<base64 of the bytes>`. -/
def readAsDataURL (f : JsFile) : String :=
  "data:" ++ f.type ++ ";base64," ++ String.mk (base64Encode f.content)

/-- The `fileToPhotoState` encoder of App.tsx: read the file as a data URL,
take `split(',')[1]` as the payload, pair it with the file's declared type. -/
def fileToPhotoState (f : JsFile) : Photo :=
  { base64Data := String.mk ((splitChar ',' (readAsDataURL f).data).getD 1 [])
    mimeType := f.type }

/-- The internal display state of the ImageUploader component. -/
structure UploaderState where
  imagePreview : Option String
  fileName : String
deriving DecidableEq, Repr

/-- The outcome of one `handleFileChange` call: the component state after
the call (with the preview read completed), whether the alert was shown, and
the file passed to `onImageUpload` (none when the callback was not invoked). -/
structure UploadOutcome where
  state : UploaderState
  alerted : Bool
  uploaded : Option JsFile
deriving DecidableEq, Repr

/-- The `handleFileChange` handler of ImageUploader: take the first selected
file if any; accept it when its declared type starts with `image/`, setting
the preview and file name and invoking the upload callback; otherwise show
an alert and change nothing. -/
def handleFileChange (u : UploaderState) (files : Option JsFile) : UploadOutcome :=
  match files with
  | none => { state := u, alerted := false, uploaded := none }
  | some f =>
      if jsStartsWith f.type "image/" then
        { state := { imagePreview := some (readAsDataURL f), fileName := f.name }
          alerted := false
          uploaded := some f }
      else
        { state := u, alerted := true, uploaded := none }

/-- The media types listed in the `accept` attribute of the file input. -/
def acceptedMimeTypes : List String :=
  ["image/png", "image/jpeg", "image/webp"]

theorem data_mk (l : List Char) : (String.mk l).data = l := rfl

theorem decode_encodeChar : ∀ i : Nat, i < 64 → decodeChar (encodeChar i) = i := by
  decide

theorem encodeChar_mem (i : Nat) : encodeChar i ∈ base64Alphabet := by
  unfold encodeChar
  rcases Nat.lt_or_ge i base64Alphabet.length with h | h
  · rw [List.getD_eq_getElem _ _ h]
    exact List.getElem_mem h
  · rw [List.getD_eq_default _ _ h]
    decide

theorem encodeChar_ne_pad (i : Nat) : encodeChar i ≠ '=' := by
  intro h
  have hm := encodeChar_mem i
  rw [h] at hm
  exact absurd hm (by decide)

theorem mem_base64Encode (bs : List Nat) :
    ∀ c ∈ base64Encode bs, c ∈ base64Alphabet ∨ c = '=' := by
  induction bs using base64Encode.induct with
  | case1 =>
      intro c hc
      simp [base64Encode] at hc
  | case2 a =>
      intro c hc
      simp only [base64Encode, List.mem_cons, List.not_mem_nil, or_false] at hc
      rcases hc with rfl | rfl | rfl | rfl
      · exact Or.inl (encodeChar_mem _)
      · exact Or.inl (encodeChar_mem _)
      · exact Or.inr rfl
      · exact Or.inr rfl
  | case3 a b =>
      intro c hc
      simp only [base64Encode, List.mem_cons, List.not_mem_nil, or_false] at hc
      rcases hc with rfl | rfl | rfl | rfl
      · exact Or.inl (encodeChar_mem _)
      · exact Or.inl (encodeChar_mem _)
      · exact Or.inl (encodeChar_mem _)
      · exact Or.inr rfl
  | case4 a b c rest ih =>
      intro ch hch
      simp only [base64Encode, List.mem_cons] at hch
      rcases hch with rfl | rfl | rfl | rfl | hm
      · exact Or.inl (encodeChar_mem _)
      · exact Or.inl (encodeChar_mem _)
      · exact Or.inl (encodeChar_mem _)
      · exact Or.inl (encodeChar_mem _)
      · exact ih ch hm

theorem comma_not_mem_base64Encode (bs : List Nat) : ',' ∉ base64Encode bs := by
  intro h
  rcases mem_base64Encode bs ',' h with h1 | h1
  · exact absurd h1 (by decide)
  · exact absurd h1 (by decide)

theorem base64Encode_hasNoDataUrlStart (bs : List Nat) :
    ¬("data:".data <+: base64Encode bs) := by
  intro h
  have hm : ':' ∈ base64Encode bs := h.subset (by decide)
  rcases mem_base64Encode bs ':' hm with h1 | h1
  · exact absurd h1 (by decide)
  · exact absurd h1 (by decide)

theorem splitChar_of_not_mem (sep : Char) (l : List Char) (h : sep ∉ l) :
    splitChar sep l = [l] := by
  induction l with
  | nil => rfl
  | cons c rest ih =>
      have hc : ¬c = sep := by
        intro hcs
        exact h (hcs ▸ List.mem_cons_self c rest)
      have hr : sep ∉ rest := fun hm => h (List.mem_cons_of_mem c hm)
      simp only [splitChar, if_neg hc, ih hr]

theorem splitChar_append (sep : Char) (l1 l2 : List Char) (h : sep ∉ l1) :
    splitChar sep (l1 ++ sep :: l2) = l1 :: splitChar sep l2 := by
  induction l1 with
  | nil => simp [splitChar]
  | cons c rest ih =>
      have hc : ¬c = sep := by
        intro hcs
        exact h (hcs ▸ List.mem_cons_self c rest)
      have hr : sep ∉ rest := fun hm => h (List.mem_cons_of_mem c hm)
      simp only [List.cons_append, splitChar, List.append_eq, if_neg hc, ih hr]

theorem readAsDataURL_data (f : JsFile) :
    (readAsDataURL f).data =
      ("data:".data ++ f.type.data ++ ";base64".data) ++
        ',' :: base64Encode f.content := by
  have h : ";base64,".data = ";base64".data ++ [','] := by decide
  simp [readAsDataURL, String.data_append, data_mk, h, List.append_assoc]

theorem fileToPhotoState_base64Data (f : JsFile) (h : ',' ∉ f.type.data) :
    (fileToPhotoState f).base64Data = String.mk (base64Encode f.content) := by
  have hpre : ',' ∉ ("data:".data ++ f.type.data ++ ";base64".data) := by
    intro hm
    rcases List.mem_append.mp hm with hm1 | hm2
    · rcases List.mem_append.mp hm1 with hm3 | hm4
      · exact absurd hm3 (by decide)
      · exact h hm4
    · exact absurd hm2 (by decide)
  simp only [fileToPhotoState]
  rw [readAsDataURL_data, splitChar_append _ _ _ hpre,
      splitChar_of_not_mem _ _ (comma_not_mem_base64Encode f.content)]
  rfl

theorem base64_roundTrip (bs : List Nat) :
    (∀ b ∈ bs, b < 256) → base64Decode (base64Encode bs) = bs := by
  induction bs using base64Encode.induct with
  | case1 => intro _; rfl
  | case2 a =>
      intro hb
      have ha : a < 256 := hb a (by simp)
      simp only [base64Encode, base64Decode, if_true]
      rw [decode_encodeChar _ (by omega), decode_encodeChar _ (by omega)]
      simp only [List.cons.injEq, and_true]
      omega
  | case3 a b =>
      intro hb
      have ha : a < 256 := hb a (by simp)
      have hbb : b < 256 := hb b (by simp)
      simp only [base64Encode, base64Decode, if_neg (encodeChar_ne_pad _),
        if_true]
      rw [decode_encodeChar _ (by omega), decode_encodeChar _ (by omega),
          decode_encodeChar _ (by omega)]
      simp only [List.cons.injEq, and_true]
      constructor
      · omega
      · omega
  | case4 a b c rest ih =>
      intro hb
      have ha : a < 256 := hb a (by simp)
      have hbb : b < 256 := hb b (by simp)
      have hc : c < 256 := hb c (by simp)
      have hrest : ∀ x ∈ rest, x < 256 := fun x hx => hb x (by simp [hx])
      simp only [base64Encode, base64Decode, if_neg (encodeChar_ne_pad _)]
      rw [decode_encodeChar _ (by omega), decode_encodeChar _ (by omega),
          decode_encodeChar _ (by omega), decode_encodeChar _ (by omega),
          ih hrest]
      simp only [List.cons.injEq, and_true]
      refine ⟨by omega, by omega, by omega⟩

/-- C6: a file whose declared type does not start with `image/` is rejected
with an alert; the component state is unchanged and the upload callback is
not invoked. -/
theorem fileChange_rejects_non_image (u : UploaderState) (f : JsFile)
    (h : jsStartsWith f.type "image/" = false) :
    handleFileChange u (some f) =
      { state := u, alerted := true, uploaded := none } := by
  simp [handleFileChange, h]

/-- Witness for C6 at a concrete text file. -/
theorem fileChange_rejects_non_image_witness :
    jsStartsWith "text/plain" "image/" = false ∧
    handleFileChange ⟨none, ""⟩ (some ⟨"notes.txt", "text/plain", [104, 105]⟩) =
      { state := ⟨none, ""⟩, alerted := true, uploaded := none } :=
  ⟨by decide,
   fileChange_rejects_non_image ⟨none, ""⟩ ⟨"notes.txt", "text/plain", [104, 105]⟩
     (by decide)⟩


/-- A GIF file: its declared type starts with `image/`, so `handleFileChange`
accepts it (the drag-and-drop path never consults the accept attribute of the
file input), yet `image/gif` is not among the accepted media types listed
there. -/
def gifFile : JsFile :=
  { name := "pic.gif", type := "image/gif", content := [71, 73, 70] }

/-- A plain PNG file used as a concrete witness input. -/
def pngFile : JsFile :=
  { name := "me.png", type := "image/png", content := [137, 80, 78, 71] }

/-- C7 counterexample: the GIF file is accepted by the capture component and
stored with `mimeType = "image/gif"`, which is not in the accepted set
{PNG, JPEG, WEBP}; so a stored photo's media type need not lie in that set. -/
theorem stored_mime_outside_accepted_set :
    (handleFileChange ⟨none, ""⟩ (some gifFile)).uploaded = some gifFile ∧
    (fileToPhotoState gifFile).mimeType = "image/gif" ∧
    "image/gif" ∉ acceptedMimeTypes := by
  refine ⟨by decide, rfl, by decide⟩

/-- C7 amended: every photo stored after a successful upload and encode has
`mimeType` equal to the file's declared type, that type starts with `image/`
(the capture component's actual check), and for any such comma-free media
type the stored `base64Data` carries no data-URL prefix. -/
theorem stored_photo_mime_image (u : UploaderState) (f : JsFile)
    (hup : (handleFileChange u (some f)).uploaded = some f)
    (hcomma : ',' ∉ f.type.data) :
    (fileToPhotoState f).mimeType = f.type ∧
    jsStartsWith f.type "image/" = true ∧
    ¬("data:".data <+: (fileToPhotoState f).base64Data.data) := by
  have himg : jsStartsWith f.type "image/" = true := by
    by_contra hne
    rw [Bool.not_eq_true] at hne
    simp [handleFileChange, hne] at hup
  refine ⟨rfl, himg, ?_⟩
  rw [fileToPhotoState_base64Data f hcomma]
  exact base64Encode_hasNoDataUrlStart _

/-- Witness for the amended C7 at a concrete PNG file. -/
theorem stored_photo_mime_image_witness :
    (handleFileChange ⟨none, ""⟩ (some pngFile)).uploaded = some pngFile ∧
    ',' ∉ pngFile.type.data ∧
    ((fileToPhotoState pngFile).mimeType = pngFile.type ∧
     jsStartsWith pngFile.type "image/" = true ∧
     ¬("data:".data <+: (fileToPhotoState pngFile).base64Data.data)) :=
  ⟨by decide, by decide,
   stored_photo_mime_image ⟨none, ""⟩ pngFile (by decide) (by decide)⟩

/-- C8: encoding a valid image file (image media type, byte-valued content)
yields a photo whose `base64Data` has no data-URL prefix and base64-decodes
back to exactly the file's bytes. -/
theorem photo_base64_roundTrip (f : JsFile)
    (hb : ∀ b ∈ f.content, b < 256)
    (_himg : jsStartsWith f.type "image/" = true)
    (hcomma : ',' ∉ f.type.data) :
    ¬("data:".data <+: (fileToPhotoState f).base64Data.data) ∧
    base64Decode (fileToPhotoState f).base64Data.data = f.content := by
  rw [fileToPhotoState_base64Data f hcomma]
  exact ⟨base64Encode_hasNoDataUrlStart _, base64_roundTrip f.content hb⟩

/-- Witness for C8 at a concrete PNG file. -/
theorem photo_base64_roundTrip_witness :
    (∀ b ∈ pngFile.content, b < 256) ∧
    jsStartsWith pngFile.type "image/" = true ∧
    ',' ∉ pngFile.type.data ∧
    (¬("data:".data <+: (fileToPhotoState pngFile).base64Data.data) ∧
     base64Decode (fileToPhotoState pngFile).base64Data.data = pngFile.content) :=
  ⟨by decide, by decide, by decide,
   photo_base64_roundTrip pngFile (by decide) (by decide) (by decide)⟩
